import Mathlib

/-!
Shallow embedding of the session-based verification orchestration of
`src/server/controllers/VerificationController.ts` (sourcify).

The controller file is the authoritative source. The helper functions it
imports from `VerificationController-util.ts` and from
`@ethereum-sourcify/lib-sourcify` (`isVerifiable`, `saveFiles`,
`verifyContractsInSession`, `getSessionJSON`, `verifyCreate2`) are part of
the repository but are not among the provided sources; those are modelled
from the specification, and each such definition carries a doc comment
saying so.

JavaScript `undefined`/`null` fields are modelled as `Option`; JS object
maps (the contract-wrapper registry, the session file store) are modelled
as association lists keyed by `String`. External collaborators (the match
engine, the compiler, the CREATE2 address computation, re-grouping) are
parameters of the endpoint embeddings. Calls to the persistence gateway
`storeMatch` and to the grouping/orchestration steps are recorded in an
explicit event trace so that claims about what is (not) invoked can be
stated.
-/

namespace Sourcify

/-- Structural grouping result of a candidate contract: detected metadata,
mapped sources, missing and invalid source-path lists, and the (optional)
creation bytecode refreshed by recompilation. -/
structure ContractModel where
  metadata : String
  solidity : List (String × String)
  missing : List String
  invalid : List String
  creationBytecode : Option String
deriving Repr, DecidableEq

/-- One candidate contract under verification inside a session
(`ContractWrapper` of the controller). -/
structure ContractWrapper where
  verificationId : String
  contract : ContractModel
  address : Option String
  chainId : Option String
  creatorTxHash : Option String
  status : String
  statusMessage : Option String
  storageTimestamp : Option Nat
deriving Repr, DecidableEq

/-- Outcome of a match attempt, as produced by the external engine.
`status = none` models a JS-falsy (`null`/absent) status, the well-formed
non-match outcome anticipated by the controller's `match.status || "error"`
and `if (match.status)`; a success carries `some "valid_runtime"` or
`some "valid_creation"`. -/
structure Match where
  status : Option String
  message : Option String
  address : Option String
  chainId : Option String
  storageTimestamp : Option Nat
deriving Repr, DecidableEq

/-- Session state: the contract-wrapper registry (`session.contractWrappers`)
and the file store, both JS objects modelled as association lists. -/
structure SessionState where
  contractWrappers : List (String × ContractWrapper)
  files : List (String × String)
deriving Repr, DecidableEq

/-- Wrapper view sent to and received from the client (`SendableContract`). -/
structure SendableContract where
  verificationId : String
  address : Option String
  chainId : Option String
  creatorTxHash : Option String
  missing : List String
  invalid : List String
  status : String
  statusMessage : Option String
deriving Repr, DecidableEq

/-- Events observable at the boundary of the controller: a call into the
re-grouping step, a call into the batch-verification orchestrator, and a
call to the persistence gateway `storeMatch`. -/
inductive Event where
  | checkContracts : Event
  | verifyContracts : Event
  | storeMatch : Event
deriving Repr, DecidableEq

/-- JS truthiness of an optional string (`null`, `undefined` and `""` are
falsy). -/
def truthy : Option String → Bool
  | none => false
  | some s => s != ""

/-- JS `a || b` for an optional string `a` and a string default `b`. -/
def jsOr : Option String → String → String
  | none, b => b
  | some s, b => if s = "" then b else s

/-- Lookup in the wrapper registry (`session.contractWrappers[id]`). -/
def findWrapper : List (String × ContractWrapper) → String → Option ContractWrapper
  | [], _ => none
  | p :: rest, id => if p.1 = id then some p.2 else findWrapper rest id

/-- In-place overwrite of a registry entry, the JS field assignment on the
wrapper object held under `id`. -/
def setWrapper : List (String × ContractWrapper) → String → ContractWrapper → List (String × ContractWrapper)
  | [], _, _ => []
  | p :: rest, id, w => (if p.1 = id then (id, w) else p) :: setWrapper rest id w

/-- Keys of the registry, in insertion order. -/
def wrapperIds (m : List (String × ContractWrapper)) : List String :=
  m.map Prod.fst

def lookupWrapper (s : SessionState) (id : String) : Option ContractWrapper :=
  findWrapper s.contractWrappers id

def setWrapperS (s : SessionState) (id : String) (w : ContractWrapper) : SessionState :=
  { s with contractWrappers := setWrapper s.contractWrappers id w }

def lookupFile : List (String × String) → String → Option String
  | [], _ => none
  | f :: rest, p => if f.1 = p then some f.2 else lookupFile rest p

/-- Store one path/content pair in the file store: overwrite the content at
an existing path, append a fresh path at the end. -/
def storeFile (files : List (String × String)) (p c : String) : List (String × String) :=
  match lookupFile files p with
  | some _ => files.map (fun f => if f.1 = p then (p, c) else f)
  | none => files ++ [(p, c)]

def saveFilesAux : List (String × String) → List (String × String) → List (String × String) × Nat
  | files, [] => (files, 0)
  | files, pc :: rest =>
    let isNew : Bool :=
      match lookupFile files pc.1 with
      | some c0 => c0 != pc.2
      | none => true
    let r := saveFilesAux (storeFile files pc.1 pc.2) rest
    (r.1, (if isNew then 1 else 0) + r.2)

/-- Modelled from the spec: `saveFiles(pathContents, session) → newFilesCount`
is defined in `VerificationController-util.ts`, which is not among the
provided sources. Spec section 4.1: adds each path/content pair to the
session's file store (identity is the path; identical content is a no-op,
different content at the same path overwrites) and returns the count of
pairs whose content differs from what was already stored. -/
def saveFiles (pathContents : List (String × String)) (s : SessionState) :
    SessionState × Nat :=
  let r := saveFilesAux s.files pathContents
  ({ s with files := r.1 }, r.2)

/-- Modelled from the spec: `isVerifiable` is defined in
`VerificationController-util.ts`, which is not among the provided sources.
Spec section 3: "A wrapper is verifiable iff `missing` is empty, `invalid`
is empty, `address` is set, and `chainId` is set." -/
def isVerifiable (w : ContractWrapper) : Bool :=
  w.contract.missing.isEmpty && w.contract.invalid.isEmpty
    && w.address.isSome && w.chainId.isSome

/-- Modelled from the spec: the per-wrapper step of the orchestrator
`verifyContractsInSession` of `VerificationController-util.ts`, which is not
among the provided sources. Spec section 4.3: delegate to the external
engine; on success set `status` to the returned match kind, set
`storageTimestamp`, and invoke the Result Store Gateway; on a well-formed
non-match set `status = "false"` with the explanatory message; on an
unexpected engine failure set `status = "error"` with the failure's message;
the wrapper is never removed. -/
def verifyWrapper (engine : ContractWrapper → Except String Match)
    (w : ContractWrapper) : ContractWrapper × List Event :=
  match engine w with
  | Except.error msg => ({ w with status := "error", statusMessage := some msg }, [])
  | Except.ok m =>
    if truthy m.status then
      ({ w with status := jsOr m.status "error", statusMessage := m.message,
                storageTimestamp := m.storageTimestamp }, [Event.storeMatch])
    else
      ({ w with status := "false", statusMessage := m.message }, [])

/-- Modelled from the spec: the batch orchestrator `verifyContractsInSession`
of `VerificationController-util.ts`, which is not among the provided
sources. Spec section 4.3: verifies each wrapper of the batch independently,
one failure never blocking another, updating each wrapper's status in place
in the session registry (the batch holds aliases into the registry, so it is
modelled as the list of registry keys to verify). -/
def verifyContractsInSession (engine : ContractWrapper → Except String Match) :
    List String → SessionState → SessionState × List Event
  | [], s => (s, [])
  | id :: rest, s =>
    match lookupWrapper s id with
    | none => verifyContractsInSession engine rest s
    | some w =>
      let r := verifyWrapper engine w
      let r2 := verifyContractsInSession engine rest (setWrapperS s id r.1)
      (r2.1, r.2 ++ r2.2)

/-- Modelled from the spec: `getSessionJSON` of
`VerificationController-util.ts`, which is not among the provided sources.
Spec section 6: the session snapshot returned to the caller carries a
wrapper-view for every wrapper of the registry (verification id,
missing/invalid lists, address/chain if set, verification status/message). -/
def getSessionJSON (s : SessionState) : List SendableContract :=
  s.contractWrappers.map (fun p =>
    { verificationId := p.1, address := p.2.address, chainId := p.2.chainId,
      creatorTxHash := p.2.creatorTxHash, missing := p.2.contract.missing,
      invalid := p.2.contract.invalid, status := p.2.status,
      statusMessage := p.2.statusMessage })

/-- Embedding of the selection loop of `verifyContractsInSessionEndpoint`
(VerificationController.ts lines 174-187): for each received contract whose
`verificationId` names a registry wrapper, overwrite the wrapper's
`address`, `chainId` and `creatorTxHash` with the received values, and when
`isVerifiable` holds add the wrapper to the `verifiable` batch. The JS
`verifiable` object holds aliases into the registry keyed by id (a repeated
id adds no new key), so the batch is modelled as the list of selected
registry keys, in first-insertion order. -/
def updateAndSelectVerifiable :
    List SendableContract → SessionState → List String → SessionState × List String
  | [], s, acc => (s, acc)
  | rc :: rest, s, acc =>
    match lookupWrapper s rc.verificationId with
    | none => updateAndSelectVerifiable rest s acc
    | some w =>
      let w2 := { w with address := rc.address, chainId := rc.chainId,
                         creatorTxHash := rc.creatorTxHash }
      let s2 := setWrapperS s rc.verificationId w2
      let acc2 :=
        if isVerifiable w2 && !(decide (rc.verificationId ∈ acc))
        then acc ++ [rc.verificationId] else acc
      updateAndSelectVerifiable rest s2 acc2

/-- Embedding of `verifyContractsInSessionEndpoint`
(VerificationController.ts lines 163-196): reject when the registry is
empty, update and select the verifiable wrappers from the received contract
list, run the batch orchestrator on them, and respond with the full session
snapshot. The result carries the final session, the response snapshot, and
the event trace. -/
def verifyContractsInSessionEndpoint
    (engine : ContractWrapper → Except String Match)
    (receivedContracts : List SendableContract) (s : SessionState) :
    Except String (SessionState × List SendableContract × List Event) :=
  if s.contractWrappers.isEmpty then
    Except.error "There are currently no pending contracts."
  else
    let u := updateAndSelectVerifiable receivedContracts s []
    let r := verifyContractsInSession engine u.2 u.1
    Except.ok (r.1, getSessionJSON r.1, r.2)

/-- Embedding of `addInputFilesEndpoint` (VerificationController.ts lines
82-108), starting after file extraction: save the submitted path/content
pairs; only when `newFilesCount` is truthy re-group
(`checkContractsInSession`, the abstract `check`) and re-verify the whole
registry (`verifyContractsInSession`, the abstract `verify`); respond with
the session snapshot. -/
def addInputFilesEndpoint (check verify : SessionState → SessionState)
    (pathContents : List (String × String)) (s : SessionState) :
    SessionState × List Event :=
  let r := saveFiles pathContents s
  if r.2 ≠ 0 then
    (verify (check r.1), [Event.checkContracts, Event.verifyContracts])
  else (r.1, [])

/-- Embedding of `addInputContractEndpoint` (VerificationController.ts lines
198-247), starting after the metadata fetch: the retrieved metadata (base64)
is saved as the single pair `("metadata.json", content)`; only when
`newFilesCount` is truthy re-group and re-verify; respond with the session
snapshot. -/
def addInputContractEndpoint (check verify : SessionState → SessionState)
    (retrievedMetadataBase64 : String) (s : SessionState) :
    SessionState × List Event :=
  let r := saveFiles [("metadata.json", retrievedMetadataBase64)] s
  if r.2 ≠ 0 then
    (verify (check r.1), [Event.checkContracts, Event.verifyContracts])
  else (r.1, [])

/-- Embedding of the selection loop of `sessionVerifyFromEtherscan`
(VerificationController.ts lines 327-339): for every wrapper of the
registry, when its `address` is unset fill in the request's address and
chain, then select the verifiable wrappers. Modelled on the registry key
list, like `updateAndSelectVerifiable`. -/
def etherscanSelect (address chain : String) :
    List String → SessionState → List String → SessionState × List String
  | [], s, acc => (s, acc)
  | id :: rest, s, acc =>
    match lookupWrapper s id with
    | none => etherscanSelect address chain rest s acc
    | some w =>
      let w2 := if w.address.isNone
                then { w with address := some address, chainId := some chain }
                else w
      let s2 := setWrapperS s id w2
      let acc2 :=
        if isVerifiable w2 && !(decide (id ∈ acc)) then acc ++ [id] else acc
      etherscanSelect address chain rest s2 acc2

/-- Embedding of `sessionVerifyFromEtherscan` (VerificationController.ts
lines 282-348), starting after the block-explorer fetch and metadata
synthesis: save the synthesized path/content pairs; when `newFilesCount` is
0 fail with `BadRequestError`; otherwise re-group (abstract `check`), fill
in missing targets, select the verifiable wrappers and run the batch
orchestrator; respond with the session snapshot. -/
def sessionVerifyFromEtherscanEndpoint (check : SessionState → SessionState)
    (engine : ContractWrapper → Except String Match)
    (pathContents : List (String × String)) (address chain : String)
    (s : SessionState) :
    Except String (SessionState × List SendableContract × List Event) :=
  let r := saveFiles pathContents s
  if r.2 = 0 then
    Except.error "The contract didn't add any new file"
  else
    let s2 := check r.1
    let u := etherscanSelect address chain (wrapperIds s2.contractWrappers) s2 []
    let v := verifyContractsInSession engine u.2 u.1
    Except.ok (v.1, getSessionJSON v.1, Event.checkContracts :: v.2)

/-- Modelled from the spec: `verifyCreate2` of the grouping/matching engine
(`@ethereum-sourcify/lib-sourcify`), which is not among the provided
sources. Spec sections 4.3 and 6: recompute the deployment address
deterministically from `(deployerAddress, salt, creationBytecode,
abiEncodedConstructorArguments)` (the computation itself is the abstract
`computeCreate2`) and compare it with the claimed `create2Address`; equality
yields a match carrying the computed address, anything else yields a
mismatch that carries no success status ("a mismatch with no persistence"). -/
def verifyCreate2 (computeCreate2 : String → String → String → String → String)
    (contract : ContractModel)
    (deployerAddress salt create2Address ctorArgs : String) : Match :=
  let computed := computeCreate2 deployerAddress salt
    (jsOr contract.creationBytecode "") ctorArgs
  if create2Address = computed then
    { status := some "valid_creation", message := none,
      address := some computed, chainId := some "0", storageTimestamp := none }
  else
    { status := none,
      message := some "The provided create2 address doesn't match the calculated one",
      address := some computed, chainId := some "0", storageTimestamp := none }

/-- Embedding of the non-session `verifyCreate2` endpoint handler
(VerificationController.ts lines 369-420), starting after file checking:
run the CREATE2 match on the first checked contract and persist it only
when `match.status` is truthy (lines 415-417). -/
def verifyCreate2Endpoint (computeCreate2 : String → String → String → String → String)
    (contract : ContractModel)
    (deployerAddress salt create2Address ctorArgs : String) :
    Match × List Event :=
  let m := verifyCreate2 computeCreate2 contract deployerAddress salt create2Address ctorArgs
  if truthy m.status then (m, [Event.storeMatch]) else (m, [])

/-- Embedding of `sessionVerifyCreate2` (VerificationController.ts lines
422-467): reject when the registry is empty; look up the wrapper named by
`verificationId` (a missing wrapper crashes the JS handler, modelled as an
error); run the CREATE2 match on its contract; unconditionally set the
wrapper's `status` to `match.status || "error"`, its `statusMessage`,
`storageTimestamp` and `address` from the match and its `chainId` to the
constant `"0"` (lines 456-460); persist only when `match.status` is truthy. -/
def sessionVerifyCreate2Endpoint
    (computeCreate2 : String → String → String → String → String)
    (deployerAddress salt ctorArgs verificationId create2Address : String)
    (s : SessionState) : Except String (SessionState × List Event) :=
  if s.contractWrappers.isEmpty then
    Except.error "There are currently no pending contracts."
  else
    match lookupWrapper s verificationId with
    | none => Except.error "TypeError: contractWrapper is undefined"
    | some w =>
      let m := verifyCreate2 computeCreate2 w.contract deployerAddress salt
        create2Address ctorArgs
      let w2 := { w with status := jsOr m.status "error",
                         statusMessage := m.message,
                         storageTimestamp := m.storageTimestamp,
                         address := m.address,
                         chainId := some "0" }
      let s2 := setWrapperS s verificationId w2
      Except.ok (s2, if truthy m.status then [Event.storeMatch] else [])

/-- Embedding of `sessionPrecompileContract` (VerificationController.ts
lines 469-494): reject when the registry is empty; look up the wrapper
named by `verificationId` (a missing wrapper crashes the JS handler,
modelled as an error); recompile its contract (the abstract `recompile`)
and assign the resulting creation bytecode to
`contractWrapper.contract.creationBytecode`; respond with the session
snapshot. -/
def sessionPrecompileContract (recompile : ContractModel → String)
    (verificationId : String) (s : SessionState) :
    Except String SessionState :=
  if s.contractWrappers.isEmpty then
    Except.error "There are currently no pending contracts."
  else
    match lookupWrapper s verificationId with
    | none => Except.error "TypeError: contractWrapper is undefined"
    | some w =>
      let w2 := { w with contract :=
        { w.contract with creationBytecode := some (recompile w.contract) } }
      Except.ok (setWrapperS s verificationId w2)

/-- Embedding of the non-session `verifyFromEtherscan` endpoint handler
(VerificationController.ts lines 249-280), starting after the
block-explorer fetch and metadata synthesis: run the deployed-bytecode
match (the abstract `verifyDeployed`) and invoke `storeMatch`
unconditionally on its result (line 277), whatever the match status. -/
def verifyFromEtherscan (verifyDeployed : ContractModel → String → String → Match)
    (checkedContract : ContractModel) (chain address : String) :
    Match × List Event :=
  let m := verifyDeployed checkedContract chain address
  (m, [Event.storeMatch])

/-- Projection used to state closed facts about endpoint results: the final
session of a successful response. -/
def sessionAfter (r : Except String (SessionState × List SendableContract × List Event)) :
    Option SessionState :=
  match r with
  | Except.ok x => some x.1
  | Except.error _ => none

def contractC1 : ContractModel :=
  { metadata := "m1", solidity := [("a.sol", "contract A")],
    missing := [], invalid := [], creationBytecode := none }

def wrapperPending (id : String) (c : ContractModel) : ContractWrapper :=
  { verificationId := id, contract := c, address := none, chainId := none,
    creatorTxHash := none, status := "pending", statusMessage := none,
    storageTimestamp := none }

def rcC1 : SendableContract :=
  { verificationId := "v1", address := some "0xabc", chainId := some "1",
    creatorTxHash := none, missing := [], invalid := [], status := "pending",
    statusMessage := none }

def sessionC1 : SessionState :=
  ⟨[("v1", wrapperPending "v1" contractC1)], [("a.sol", "contract A")]⟩

def sessionC2 : SessionState :=
  ⟨[("v1", wrapperPending "v1" contractC1)],
   [("a.sol", "contract A"), ("metadata.json", "m1")]⟩

def wrapperA : ContractWrapper :=
  { verificationId := "a", contract := contractC1, address := some "0xa1",
    chainId := some "1", creatorTxHash := none, status := "pending",
    statusMessage := none, storageTimestamp := none }

def wrapperB : ContractWrapper :=
  { wrapperA with verificationId := "b", address := some "0xb1" }

def sessionC8 : SessionState := ⟨[("a", wrapperA), ("b", wrapperB)], []⟩

def matchOkC8 : Match :=
  { status := some "valid_runtime", message := none, address := some "0xb1",
    chainId := some "1", storageTimestamp := some 7 }

def engineC8 : ContractWrapper → Except String Match :=
  fun w => if w.verificationId = "a" then Except.error "network error"
           else Except.ok matchOkC8

def wrapperC3 : ContractWrapper :=
  { verificationId := "v1", contract := contractC1, address := some "0xaaa",
    chainId := some "1", creatorTxHash := none, status := "valid_runtime",
    statusMessage := none, storageTimestamp := some 3 }

def sessionC3 : SessionState := ⟨[("v1", wrapperC3)], []⟩

def rcC3 : SendableContract :=
  { verificationId := "v1", address := some "0xbbb", chainId := some "5",
    creatorTxHash := none, missing := [], invalid := [],
    status := "valid_runtime", statusMessage := none }

def engineErr : ContractWrapper → Except String Match :=
  fun _ => Except.error "network error"

def contractMissingSrc : ContractModel :=
  { metadata := "m2", solidity := [], missing := ["lib.sol"], invalid := [],
    creationBytecode := none }

def wrapperC5 : ContractWrapper := wrapperPending "v1" contractMissingSrc

def sessionC5 : SessionState := ⟨[("v1", wrapperC5)], []⟩

def rcC5 : SendableContract :=
  { verificationId := "v1", address := some "0xbbb", chainId := some "1",
    creatorTxHash := none, missing := ["lib.sol"], invalid := [],
    status := "pending", statusMessage := none }

def computeCreate2C4 : String → String → String → String → String :=
  fun _ _ _ _ => "0xcomputed"

/-! Theorems. -/

theorem findWrapper_setWrapper_self (m : List (String × ContractWrapper))
    (id : String) (w : ContractWrapper) :
    findWrapper (setWrapper m id w) id = (findWrapper m id).map (fun _ => w) := by
  induction m with
  | nil => rfl
  | cons p rest ih =>
    by_cases h : p.1 = id
    · simp [setWrapper, findWrapper, h]
    · simp [setWrapper, findWrapper, h, ih]

theorem findWrapper_setWrapper_ne (m : List (String × ContractWrapper))
    (id id2 : String) (w : ContractWrapper) (h : id2 ≠ id) :
    findWrapper (setWrapper m id w) id2 = findWrapper m id2 := by
  induction m with
  | nil => rfl
  | cons p rest ih =>
    by_cases hp : p.1 = id
    · have hid : id ≠ id2 := fun he => h he.symm
      simp [setWrapper, findWrapper, hp, hid, ih]
    · by_cases hp2 : p.1 = id2
      · simp [setWrapper, findWrapper, hp, hp2, h]
      · simp [setWrapper, findWrapper, hp, hp2, ih]

theorem wrapperIds_setWrapper (m : List (String × ContractWrapper))
    (id : String) (w : ContractWrapper) :
    wrapperIds (setWrapper m id w) = wrapperIds m := by
  induction m with
  | nil => rfl
  | cons p rest ih =>
    by_cases h : p.1 = id
    · simp only [setWrapper, wrapperIds, List.map, if_pos h, h]
      exact congrArg (id :: ·) ih
    · simp only [setWrapper, wrapperIds, List.map, if_neg h]
      exact congrArg (p.1 :: ·) ih

theorem findWrapper_ne_nil {m : List (String × ContractWrapper)} {id : String}
    {w : ContractWrapper} (h : findWrapper m id = some w) : m ≠ [] := by
  cases m with
  | nil => simp [findWrapper] at h
  | cons p rest => simp

theorem saveFiles_contractWrappers (pathContents : List (String × String))
    (s : SessionState) :
    (saveFiles pathContents s).1.contractWrappers = s.contractWrappers := rfl

theorem verifyContractsInSession_lookup_notMem
    (engine : ContractWrapper → Except String Match) (ids : List String)
    (s : SessionState) (id : String) (h : id ∉ ids) :
    lookupWrapper (verifyContractsInSession engine ids s).1 id = lookupWrapper s id := by
  induction ids generalizing s with
  | nil => rfl
  | cons i rest ih =>
    have hne : id ≠ i := fun he => h (he ▸ List.mem_cons_self i rest)
    have hrest : id ∉ rest := fun hm => h (List.mem_cons_of_mem i hm)
    cases hw : lookupWrapper s i with
    | none => simp [verifyContractsInSession, hw, ih _ hrest]
    | some w =>
      simp only [verifyContractsInSession, hw]
      rw [ih _ hrest]
      exact findWrapper_setWrapper_ne _ _ _ _ hne

theorem verifyContractsInSession_files
    (engine : ContractWrapper → Except String Match) (ids : List String)
    (s : SessionState) :
    (verifyContractsInSession engine ids s).1.files = s.files := by
  induction ids generalizing s with
  | nil => rfl
  | cons i rest ih =>
    cases hw : lookupWrapper s i with
    | none => simp [verifyContractsInSession, hw, ih]
    | some w => simp [verifyContractsInSession, hw, ih, setWrapperS]

theorem verifyContractsInSession_wrapperIds
    (engine : ContractWrapper → Except String Match) (ids : List String)
    (s : SessionState) :
    wrapperIds (verifyContractsInSession engine ids s).1.contractWrappers =
      wrapperIds s.contractWrappers := by
  induction ids generalizing s with
  | nil => rfl
  | cons i rest ih =>
    cases hw : lookupWrapper s i with
    | none => simp [verifyContractsInSession, hw, ih]
    | some w =>
      simp only [verifyContractsInSession, hw]
      rw [ih]
      exact wrapperIds_setWrapper _ _ _

theorem verifyContractsInSession_lookup_mem
    (engine : ContractWrapper → Except String Match) (ids : List String)
    (s : SessionState) (id : String) (w : ContractWrapper)
    (hnodup : ids.Nodup) (hmem : id ∈ ids) (hw : lookupWrapper s id = some w) :
    lookupWrapper (verifyContractsInSession engine ids s).1 id =
      some (verifyWrapper engine w).1 := by
  induction ids generalizing s with
  | nil => exact absurd hmem (List.not_mem_nil id)
  | cons i rest ih =>
    rcases List.mem_cons.mp hmem with he | hm
    · subst he
      have hrest : id ∉ rest := (List.nodup_cons.mp hnodup).1
      simp only [verifyContractsInSession, hw]
      rw [verifyContractsInSession_lookup_notMem engine rest _ id hrest]
      show findWrapper (setWrapper s.contractWrappers id _) id = _
      rw [findWrapper_setWrapper_self]
      rw [show findWrapper s.contractWrappers id = some w from hw]
      rfl
    · have hne : id ≠ i := by
        intro he
        exact (List.nodup_cons.mp hnodup).1 (he ▸ hm)
      have hnodup2 : rest.Nodup := (List.nodup_cons.mp hnodup).2
      cases hwi : lookupWrapper s i with
      | none =>
        simp only [verifyContractsInSession, hwi]
        exact ih _ hnodup2 hm hw
      | some wi =>
        simp only [verifyContractsInSession, hwi]
        refine ih _ hnodup2 hm ?_
        show findWrapper (setWrapper s.contractWrappers i _) id = some w
        rw [findWrapper_setWrapper_ne _ _ _ _ hne]
        exact hw

theorem lookupWrapper_setWrapperS_ne (s : SessionState) (id id2 : String)
    (w : ContractWrapper) (h : id2 ≠ id) :
    lookupWrapper (setWrapperS s id w) id2 = lookupWrapper s id2 :=
  findWrapper_setWrapper_ne _ _ _ _ h

theorem lookupWrapper_setWrapperS_self {s : SessionState} {id : String}
    {w0 : ContractWrapper} (w : ContractWrapper)
    (h : lookupWrapper s id = some w0) :
    lookupWrapper (setWrapperS s id w) id = some w := by
  show findWrapper (setWrapper s.contractWrappers id w) id = some w
  rw [findWrapper_setWrapper_self, show findWrapper s.contractWrappers id = some w0 from h]
  rfl

theorem lookupWrapper_isEmpty_false {s : SessionState} {id : String}
    {w : ContractWrapper} (h : lookupWrapper s id = some w) :
    s.contractWrappers.isEmpty = false := by
  cases hm : s.contractWrappers with
  | nil =>
    rw [lookupWrapper, hm] at h
    simp [findWrapper] at h
  | cons p rest => simp [List.isEmpty]

theorem verifyWrapper_preserves_target (engine : ContractWrapper → Except String Match)
    (w : ContractWrapper) :
    (verifyWrapper engine w).1.address = w.address ∧
    (verifyWrapper engine w).1.chainId = w.chainId := by
  unfold verifyWrapper
  cases engine w with
  | error msg => exact ⟨rfl, rfl⟩
  | ok m =>
    by_cases h : truthy m.status = true
    · simp [h]
    · simp [h]

theorem verifyContractsInSessionEndpoint_ok
    (engine : ContractWrapper → Except String Match)
    (received : List SendableContract) (s : SessionState)
    (hne : s.contractWrappers.isEmpty = false) :
    verifyContractsInSessionEndpoint engine received s =
      Except.ok
        ((verifyContractsInSession engine (updateAndSelectVerifiable received s []).2
            (updateAndSelectVerifiable received s []).1).1,
         getSessionJSON (verifyContractsInSession engine (updateAndSelectVerifiable received s []).2
            (updateAndSelectVerifiable received s []).1).1,
         (verifyContractsInSession engine (updateAndSelectVerifiable received s []).2
            (updateAndSelectVerifiable received s []).1).2) := by
  simp only [verifyContractsInSessionEndpoint, hne]
  rfl

theorem getSessionJSON_ids (s : SessionState) :
    (getSessionJSON s).map SendableContract.verificationId = wrapperIds s.contractWrappers := by
  simp only [getSessionJSON, wrapperIds, List.map_map]
  rfl

theorem updateAndSelectVerifiable_wrapperIds (received : List SendableContract) :
    ∀ (s : SessionState) (acc : List String),
    wrapperIds (updateAndSelectVerifiable received s acc).1.contractWrappers =
      wrapperIds s.contractWrappers := by
  induction received with
  | nil => intro s acc; rfl
  | cons rc rest ih =>
    intro s acc
    cases hw : lookupWrapper s rc.verificationId with
    | none =>
      simp only [updateAndSelectVerifiable, hw]
      exact ih s acc
    | some w =>
      simp only [updateAndSelectVerifiable, hw]
      rw [ih]
      exact wrapperIds_setWrapper _ _ _

theorem updateAndSelectVerifiable_status (received : List SendableContract) :
    ∀ (s : SessionState) (acc : List String) (id : String),
    (lookupWrapper (updateAndSelectVerifiable received s acc).1 id).map ContractWrapper.status =
      (lookupWrapper s id).map ContractWrapper.status := by
  induction received with
  | nil => intro s acc id; rfl
  | cons rc rest ih =>
    intro s acc id
    cases hw : lookupWrapper s rc.verificationId with
    | none =>
      simp only [updateAndSelectVerifiable, hw]
      exact ih _ _ _
    | some w =>
      simp only [updateAndSelectVerifiable, hw]
      rw [ih]
      by_cases h : id = rc.verificationId
      · subst h
        rw [lookupWrapper_setWrapperS_self _ hw, hw]
        rfl
      · rw [lookupWrapper_setWrapperS_ne _ _ _ _ h]

theorem updateAndSelectVerifiable_sound (received : List SendableContract) :
    ∀ (s : SessionState) (acc : List String),
    (received.map SendableContract.verificationId).Nodup →
    (∀ id ∈ acc, id ∉ received.map SendableContract.verificationId) →
    (∀ id ∈ acc, ∃ w, lookupWrapper s id = some w ∧ isVerifiable w = true) →
    ∀ id ∈ (updateAndSelectVerifiable received s acc).2,
      ∃ w, lookupWrapper (updateAndSelectVerifiable received s acc).1 id = some w ∧
        isVerifiable w = true := by
  induction received with
  | nil =>
    intro s acc _ _ hinv id hid
    exact hinv id hid
  | cons rc rest ih =>
    intro s acc hnodup hdisj hinv id hid
    have hnd := List.nodup_cons.mp hnodup
    cases hw : lookupWrapper s rc.verificationId with
    | none =>
      simp only [updateAndSelectVerifiable, hw] at hid ⊢
      refine ih s acc hnd.2 ?_ hinv id hid
      intro id2 h2 hm
      exact hdisj id2 h2 (List.mem_cons_of_mem _ hm)
    | some w =>
      simp only [updateAndSelectVerifiable, hw] at hid ⊢
      refine ih _ _ hnd.2 ?_ ?_ id hid
      · intro id2 h2
        split at h2
        next hc =>
          rcases List.mem_append.mp h2 with h2a | h2b
          · intro hm
            exact hdisj id2 h2a (List.mem_cons_of_mem _ hm)
          · rw [List.mem_singleton.mp h2b]
            exact hnd.1
        next hc =>
          intro hm
          exact hdisj id2 h2 (List.mem_cons_of_mem _ hm)
      · intro id2 h2
        split at h2
        next hc =>
          rcases List.mem_append.mp h2 with h2a | h2b
          · obtain ⟨w0, hl0, hv0⟩ := hinv id2 h2a
            have hne2 : id2 ≠ rc.verificationId := by
              intro he
              exact hdisj id2 h2a (he ▸ List.mem_cons_self _ _)
            exact ⟨w0, by rw [lookupWrapper_setWrapperS_ne _ _ _ _ hne2]; exact hl0, hv0⟩
          · rw [List.mem_singleton.mp h2b]
            refine ⟨_, lookupWrapper_setWrapperS_self _ hw, ?_⟩
            have h3 := hc
            simp only [Bool.and_eq_true] at h3
            exact h3.1
        next hc =>
          obtain ⟨w0, hl0, hv0⟩ := hinv id2 h2
          have hne2 : id2 ≠ rc.verificationId := by
            intro he
            exact hdisj id2 h2 (he ▸ List.mem_cons_self _ _)
          exact ⟨w0, by rw [lookupWrapper_setWrapperS_ne _ _ _ _ hne2]; exact hl0, hv0⟩

theorem etherscanSelect_sound (address chain : String) (ids : List String) :
    ∀ (s : SessionState) (acc : List String),
    ids.Nodup →
    (∀ id ∈ acc, id ∉ ids) →
    (∀ id ∈ acc, ∃ w, lookupWrapper s id = some w ∧ isVerifiable w = true) →
    ∀ id ∈ (etherscanSelect address chain ids s acc).2,
      ∃ w, lookupWrapper (etherscanSelect address chain ids s acc).1 id = some w ∧
        isVerifiable w = true := by
  induction ids with
  | nil =>
    intro s acc _ _ hinv id hid
    exact hinv id hid
  | cons i rest ih =>
    intro s acc hnodup hdisj hinv id hid
    have hnd := List.nodup_cons.mp hnodup
    cases hw : lookupWrapper s i with
    | none =>
      simp only [etherscanSelect, hw] at hid ⊢
      refine ih s acc hnd.2 ?_ hinv id hid
      intro id2 h2 hm
      exact hdisj id2 h2 (List.mem_cons_of_mem _ hm)
    | some w =>
      simp only [etherscanSelect, hw] at hid ⊢
      by_cases haddr : w.address.isNone = true
      · rw [if_pos haddr] at hid ⊢
        refine ih _ _ hnd.2 ?_ ?_ id hid
        · intro id2 h2
          split at h2
          next hc =>
            rcases List.mem_append.mp h2 with h2a | h2b
            · intro hm
              exact hdisj id2 h2a (List.mem_cons_of_mem _ hm)
            · rw [List.mem_singleton.mp h2b]
              exact hnd.1
          next hc =>
            intro hm
            exact hdisj id2 h2 (List.mem_cons_of_mem _ hm)
        · intro id2 h2
          split at h2
          next hc =>
            rcases List.mem_append.mp h2 with h2a | h2b
            · obtain ⟨w0, hl0, hv0⟩ := hinv id2 h2a
              have hne2 : id2 ≠ i := by
                intro he
                exact hdisj id2 h2a (he ▸ List.mem_cons_self _ _)
              exact ⟨w0, by rw [lookupWrapper_setWrapperS_ne _ _ _ _ hne2]; exact hl0, hv0⟩
            · rw [List.mem_singleton.mp h2b]
              refine ⟨_, lookupWrapper_setWrapperS_self _ hw, ?_⟩
              have h3 := hc
              simp only [Bool.and_eq_true] at h3
              exact h3.1
          next hc =>
            obtain ⟨w0, hl0, hv0⟩ := hinv id2 h2
            have hne2 : id2 ≠ i := by
              intro he
              exact hdisj id2 h2 (he ▸ List.mem_cons_self _ _)
            exact ⟨w0, by rw [lookupWrapper_setWrapperS_ne _ _ _ _ hne2]; exact hl0, hv0⟩
      · rw [if_neg haddr] at hid ⊢
        refine ih _ _ hnd.2 ?_ ?_ id hid
        · intro id2 h2
          split at h2
          next hc =>
            rcases List.mem_append.mp h2 with h2a | h2b
            · intro hm
              exact hdisj id2 h2a (List.mem_cons_of_mem _ hm)
            · rw [List.mem_singleton.mp h2b]
              exact hnd.1
          next hc =>
            intro hm
            exact hdisj id2 h2 (List.mem_cons_of_mem _ hm)
        · intro id2 h2
          split at h2
          next hc =>
            rcases List.mem_append.mp h2 with h2a | h2b
            · obtain ⟨w0, hl0, hv0⟩ := hinv id2 h2a
              have hne2 : id2 ≠ i := by
                intro he
                exact hdisj id2 h2a (he ▸ List.mem_cons_self _ _)
              exact ⟨w0, by rw [lookupWrapper_setWrapperS_ne _ _ _ _ hne2]; exact hl0, hv0⟩
            · rw [List.mem_singleton.mp h2b]
              refine ⟨_, lookupWrapper_setWrapperS_self _ hw, ?_⟩
              have h3 := hc
              simp only [Bool.and_eq_true] at h3
              exact h3.1
          next hc =>
            obtain ⟨w0, hl0, hv0⟩ := hinv id2 h2
            have hne2 : id2 ≠ i := by
              intro he
              exact hdisj id2 h2 (he ▸ List.mem_cons_self _ _)
            exact ⟨w0, by rw [lookupWrapper_setWrapperS_ne _ _ _ _ hne2]; exact hl0, hv0⟩

/-- C1: for every contract wrapper `w`, `isVerifiable w` holds iff `w`'s
missing-source list is empty, `w`'s invalid-source list is empty, `w`'s
address is set and `w`'s chainId is set; and the batches that the session
verify endpoint and the session block-explorer import pass to the
verification orchestrator contain only wrappers satisfying this predicate. -/
theorem C1_isVerifiable_selector (w : ContractWrapper)
    (received : List SendableContract) (addr chain : String) (ids : List String)
    (s t : SessionState)
    (hnodup : (received.map SendableContract.verificationId).Nodup)
    (hnodup2 : ids.Nodup) :
    (isVerifiable w = true ↔
      w.contract.missing = [] ∧ w.contract.invalid = [] ∧
      w.address.isSome = true ∧ w.chainId.isSome = true) ∧
    (∀ id ∈ (updateAndSelectVerifiable received s []).2,
      ∃ w2, lookupWrapper (updateAndSelectVerifiable received s []).1 id = some w2 ∧
        isVerifiable w2 = true) ∧
    (∀ id ∈ (etherscanSelect addr chain ids t []).2,
      ∃ w2, lookupWrapper (etherscanSelect addr chain ids t []).1 id = some w2 ∧
        isVerifiable w2 = true) := by
  refine ⟨?_, ?_, ?_⟩
  · simp [isVerifiable, Bool.and_eq_true, List.isEmpty_iff, and_assoc]
  · exact updateAndSelectVerifiable_sound received s [] hnodup
      (by intro id hid; exact absurd hid (List.not_mem_nil id))
      (by intro id hid; exact absurd hid (List.not_mem_nil id))
  · exact etherscanSelect_sound addr chain ids t [] hnodup2
      (by intro id hid; exact absurd hid (List.not_mem_nil id))
      (by intro id hid; exact absurd hid (List.not_mem_nil id))

theorem C1_witness :
    ([rcC1].map SendableContract.verificationId).Nodup ∧
    (["v1"] : List String).Nodup ∧
    ((isVerifiable (wrapperPending "v1" contractC1) = true ↔
      (wrapperPending "v1" contractC1).contract.missing = [] ∧
      (wrapperPending "v1" contractC1).contract.invalid = [] ∧
      (wrapperPending "v1" contractC1).address.isSome = true ∧
      (wrapperPending "v1" contractC1).chainId.isSome = true) ∧
    (∀ id ∈ (updateAndSelectVerifiable [rcC1] sessionC1 []).2,
      ∃ w2, lookupWrapper (updateAndSelectVerifiable [rcC1] sessionC1 []).1 id = some w2 ∧
        isVerifiable w2 = true) ∧
    (∀ id ∈ (etherscanSelect "0xabc" "1" ["v1"] sessionC1 []).2,
      ∃ w2, lookupWrapper (etherscanSelect "0xabc" "1" ["v1"] sessionC1 []).1 id = some w2 ∧
        isVerifiable w2 = true)) :=
  ⟨by decide, by decide,
   C1_isVerifiable_selector (wrapperPending "v1" contractC1) [rcC1] "0xabc" "1"
     ["v1"] sessionC1 sessionC1 (by decide) (by decide)⟩

/-- C2: when `saveFiles` reports zero new files, the file-submission
endpoints (`addInputFilesEndpoint` and `addInputContractEndpoint`) invoke
neither re-grouping nor re-verification, and leave the session's wrapper
registry unchanged. -/
theorem C2_noop_resubmission_is_inert
    (check verify : SessionState → SessionState)
    (pathContents : List (String × String)) (meta : String) (s : SessionState)
    (h1 : (saveFiles pathContents s).2 = 0)
    (h2 : (saveFiles [("metadata.json", meta)] s).2 = 0) :
    (addInputFilesEndpoint check verify pathContents s).1.contractWrappers =
      s.contractWrappers ∧
    (addInputFilesEndpoint check verify pathContents s).2 = [] ∧
    (addInputContractEndpoint check verify meta s).1.contractWrappers =
      s.contractWrappers ∧
    (addInputContractEndpoint check verify meta s).2 = [] := by
  unfold addInputFilesEndpoint addInputContractEndpoint
  simp [h1, h2, saveFiles_contractWrappers]

theorem C2_witness :
    (saveFiles [("a.sol", "contract A")] sessionC2).2 = 0 ∧
    (saveFiles [("metadata.json", "m1")] sessionC2).2 = 0 ∧
    ((addInputFilesEndpoint id id [("a.sol", "contract A")] sessionC2).1.contractWrappers =
      sessionC2.contractWrappers ∧
    (addInputFilesEndpoint id id [("a.sol", "contract A")] sessionC2).2 = [] ∧
    (addInputContractEndpoint id id "m1" sessionC2).1.contractWrappers =
      sessionC2.contractWrappers ∧
    (addInputContractEndpoint id id "m1" sessionC2).2 = []) :=
  ⟨by decide, by decide,
   C2_noop_resubmission_is_inert id id [("a.sol", "contract A")] "m1" sessionC2
     (by decide) (by decide)⟩

/-- C6: when saving the synthesized block-explorer files into the session
yields zero new files, the session import endpoint fails with the
`BadRequestError` message before any grouping or verification, and never
returns a success response. -/
theorem C6_etherscan_session_rejects_no_new_files
    (check : SessionState → SessionState)
    (engine : ContractWrapper → Except String Match)
    (pathContents : List (String × String)) (address chain : String)
    (s : SessionState) (h : (saveFiles pathContents s).2 = 0) :
    sessionVerifyFromEtherscanEndpoint check engine pathContents address chain s =
      Except.error "The contract didn't add any new file" := by
  unfold sessionVerifyFromEtherscanEndpoint
  simp [h]

theorem C6_witness :
    (saveFiles [("a.sol", "contract A")] sessionC2).2 = 0 ∧
    sessionVerifyFromEtherscanEndpoint id engineC8 [("a.sol", "contract A")]
      "0xabc" "1" sessionC2 =
      Except.error "The contract didn't add any new file" :=
  ⟨by decide,
   C6_etherscan_session_rejects_no_new_files id engineC8 [("a.sol", "contract A")]
     "0xabc" "1" sessionC2 (by decide)⟩

/-- C8: in a batch of wrappers, when the external match call fails for
wrapper `k` (the engine returns an error for it), wrapper `k` alone is
marked `error` while every other wrapper of the batch receives its own
outcome, and no wrapper is removed from the registry. -/
theorem C8_batch_error_isolated
    (engine : ContractWrapper → Except String Match) (ids : List String)
    (s : SessionState) (k : String) (wk : ContractWrapper) (msg : String)
    (hnodup : ids.Nodup) (hk : k ∈ ids)
    (hwk : lookupWrapper s k = some wk)
    (herr : engine wk = Except.error msg) :
    lookupWrapper (verifyContractsInSession engine ids s).1 k =
      some { wk with status := "error", statusMessage := some msg } ∧
    (∀ id ∈ ids, id ≠ k → ∀ w, lookupWrapper s id = some w →
      lookupWrapper (verifyContractsInSession engine ids s).1 id =
        some (verifyWrapper engine w).1) ∧
    wrapperIds (verifyContractsInSession engine ids s).1.contractWrappers =
      wrapperIds s.contractWrappers := by
  refine ⟨?_, ?_, verifyContractsInSession_wrapperIds engine ids s⟩
  · rw [verifyContractsInSession_lookup_mem engine ids s k wk hnodup hk hwk]
    simp [verifyWrapper, herr]
  · intro id hid _ w hw
    exact verifyContractsInSession_lookup_mem engine ids s id w hnodup hid hw

theorem C8_witness :
    (["a", "b"] : List String).Nodup ∧ "a" ∈ (["a", "b"] : List String) ∧
    lookupWrapper sessionC8 "a" = some wrapperA ∧
    engineC8 wrapperA = Except.error "network error" ∧
    (lookupWrapper (verifyContractsInSession engineC8 ["a", "b"] sessionC8).1 "a" =
      some { wrapperA with status := "error", statusMessage := some "network error" } ∧
    (∀ id ∈ (["a", "b"] : List String), id ≠ "a" →
      ∀ w, lookupWrapper sessionC8 id = some w →
      lookupWrapper (verifyContractsInSession engineC8 ["a", "b"] sessionC8).1 id =
        some (verifyWrapper engineC8 w).1) ∧
    wrapperIds (verifyContractsInSession engineC8 ["a", "b"] sessionC8).1.contractWrappers =
      wrapperIds sessionC8.contractWrappers) :=
  ⟨by decide, by decide, by decide, rfl,
   C8_batch_error_isolated engineC8 ["a", "b"] sessionC8 "a" wrapperA
     "network error" (by decide) (by decide) (by decide) rfl⟩

/-- C9: the non-session block-explorer import (`verifyFromEtherscan`)
invokes `storeMatch` unconditionally on every match returned by the engine,
whatever its status — unlike the CREATE2 endpoint, whose persistence call is
guarded by the match status. -/
theorem C9_etherscan_store_unconditional :
    (∀ (verifyDeployed : ContractModel → String → String → Match)
       (checkedContract : ContractModel) (chain address : String),
      (verifyFromEtherscan verifyDeployed checkedContract chain address).2 =
        [Event.storeMatch]) ∧
    (∀ (computeCreate2 : String → String → String → String → String)
       (contract : ContractModel)
       (deployerAddress salt create2Address ctorArgs : String),
      (verifyCreate2Endpoint computeCreate2 contract deployerAddress salt
          create2Address ctorArgs).2 =
        if truthy (verifyCreate2 computeCreate2 contract deployerAddress salt
            create2Address ctorArgs).status = true
        then [Event.storeMatch] else []) := by
  constructor
  · intro _ _ _ _
    rfl
  · intro cc c d sa a g
    unfold verifyCreate2Endpoint
    by_cases h : truthy (verifyCreate2 cc c d sa a g).status = true
    · rw [if_pos h, if_pos h]
    · rw [if_neg h, if_neg h]

theorem verifyCreate2_mismatch_status
    (computeCreate2 : String → String → String → String → String)
    (c : ContractModel) (d sa a g : String)
    (h : a ≠ computeCreate2 d sa (jsOr c.creationBytecode "") g) :
    (verifyCreate2 computeCreate2 c d sa a g).status = none := by
  simp only [verifyCreate2]
  rw [if_neg h]

theorem sessionVerifyCreate2Endpoint_ok
    (computeCreate2 : String → String → String → String → String)
    (deployerAddress salt ctorArgs verificationId create2Address : String)
    (s : SessionState) (w : ContractWrapper)
    (hw : lookupWrapper s verificationId = some w) :
    sessionVerifyCreate2Endpoint computeCreate2 deployerAddress salt ctorArgs
      verificationId create2Address s =
      Except.ok
        (setWrapperS s verificationId
          { w with
            status := jsOr (verifyCreate2 computeCreate2 w.contract deployerAddress salt create2Address ctorArgs).status "error",
            statusMessage := (verifyCreate2 computeCreate2 w.contract deployerAddress salt create2Address ctorArgs).message,
            storageTimestamp := (verifyCreate2 computeCreate2 w.contract deployerAddress salt create2Address ctorArgs).storageTimestamp,
            address := (verifyCreate2 computeCreate2 w.contract deployerAddress salt create2Address ctorArgs).address,
            chainId := some "0" },
         if truthy (verifyCreate2 computeCreate2 w.contract deployerAddress salt create2Address ctorArgs).status = true
         then [Event.storeMatch] else []) := by
  have hne := lookupWrapper_isEmpty_false hw
  unfold sessionVerifyCreate2Endpoint
  rw [hne, hw]
  rfl

/-- C3 counterexample: a wrapper that already holds a successful match
(status `valid_runtime`, address `0xaaa`, chainId `1`) has its address and
chainId overwritten by a later session verify call naming the same
verificationId, refuting "once the wrapper has a successful match its
address and chainId are never changed by any subsequent operation". -/
theorem C3_counterexample :
    (lookupWrapper sessionC3 "v1").map ContractWrapper.status = some "valid_runtime" ∧
    (lookupWrapper sessionC3 "v1").map ContractWrapper.address = some (some "0xaaa") ∧
    (lookupWrapper sessionC3 "v1").map ContractWrapper.chainId = some (some "1") ∧
    ((sessionAfter (verifyContractsInSessionEndpoint engineErr [rcC3] sessionC3)).bind
      (fun s2 => lookupWrapper s2 "v1")).map ContractWrapper.address =
      some (some "0xbbb") ∧
    ((sessionAfter (verifyContractsInSessionEndpoint engineErr [rcC3] sessionC3)).bind
      (fun s2 => lookupWrapper s2 "v1")).map ContractWrapper.chainId =
      some (some "5") := by
  decide

/-- C3 (amended): `address` and `chainId` are reassigned by every session
verify call that names the wrapper's verificationId, regardless of the
wrapper's status — there is no immutability after a successful match. -/
theorem C3_amended_target_always_reassigned
    (engine : ContractWrapper → Except String Match) (rc : SendableContract)
    (s : SessionState) (w : ContractWrapper)
    (hw : lookupWrapper s rc.verificationId = some w) :
    ∃ s2 snap tr,
      verifyContractsInSessionEndpoint engine [rc] s = Except.ok (s2, snap, tr) ∧
      ∃ w2, lookupWrapper s2 rc.verificationId = some w2 ∧
        w2.address = rc.address ∧ w2.chainId = rc.chainId := by
  have hne := lookupWrapper_isEmpty_false hw
  rw [verifyContractsInSessionEndpoint_ok engine [rc] s hne]
  refine ⟨_, _, _, rfl, ?_⟩
  by_cases hv : isVerifiable { w with address := rc.address, chainId := rc.chainId, creatorTxHash := rc.creatorTxHash } = true
  · have hu : updateAndSelectVerifiable [rc] s [] =
        (setWrapperS s rc.verificationId { w with address := rc.address, chainId := rc.chainId, creatorTxHash := rc.creatorTxHash },
         [rc.verificationId]) := by
      simp [updateAndSelectVerifiable, hw, hv]
    have hl : lookupWrapper (setWrapperS s rc.verificationId { w with address := rc.address, chainId := rc.chainId, creatorTxHash := rc.creatorTxHash }) rc.verificationId =
        some { w with address := rc.address, chainId := rc.chainId, creatorTxHash := rc.creatorTxHash } :=
      lookupWrapper_setWrapperS_self _ hw
    simp only [hu]
    rw [verifyContractsInSession_lookup_mem engine [rc.verificationId]
      (setWrapperS s rc.verificationId { w with address := rc.address, chainId := rc.chainId, creatorTxHash := rc.creatorTxHash })
      rc.verificationId
      { w with address := rc.address, chainId := rc.chainId, creatorTxHash := rc.creatorTxHash }
      (by simp) (by simp) hl]
    exact ⟨_, rfl, (verifyWrapper_preserves_target engine _).1,
      (verifyWrapper_preserves_target engine _).2⟩
  · have hu : updateAndSelectVerifiable [rc] s [] =
        (setWrapperS s rc.verificationId { w with address := rc.address, chainId := rc.chainId, creatorTxHash := rc.creatorTxHash }, []) := by
      simp [updateAndSelectVerifiable, hw, hv]
    simp only [hu, verifyContractsInSession]
    exact ⟨_, lookupWrapper_setWrapperS_self _ hw, rfl, rfl⟩

theorem C3_amended_witness :
    lookupWrapper sessionC3 rcC3.verificationId = some wrapperC3 ∧
    (∃ s2 snap tr,
      verifyContractsInSessionEndpoint engineErr [rcC3] sessionC3 =
        Except.ok (s2, snap, tr) ∧
      ∃ w2, lookupWrapper s2 rcC3.verificationId = some w2 ∧
        w2.address = rcC3.address ∧ w2.chainId = rcC3.chainId) :=
  ⟨by decide,
   C3_amended_target_always_reassigned engineErr rcC3 sessionC3 wrapperC3 (by decide)⟩

/-- C4: in the CREATE2 pathway, when the claimed create2Address differs from
the address recomputed from (deployerAddress, salt, creationBytecode,
constructor arguments) — a mismatch — `storeMatch` is never invoked: the
non-session endpoint's event trace is empty and the session endpoint
succeeds with an empty event trace. -/
theorem C4_create2_mismatch_not_persisted
    (computeCreate2 : String → String → String → String → String)
    (contract : ContractModel)
    (deployerAddress salt ctorArgs create2Address verificationId : String)
    (s : SessionState) (w : ContractWrapper)
    (hw : lookupWrapper s verificationId = some w)
    (hmm1 : create2Address ≠ computeCreate2 deployerAddress salt
      (jsOr contract.creationBytecode "") ctorArgs)
    (hmm2 : create2Address ≠ computeCreate2 deployerAddress salt
      (jsOr w.contract.creationBytecode "") ctorArgs) :
    (verifyCreate2Endpoint computeCreate2 contract deployerAddress salt
      create2Address ctorArgs).2 = [] ∧
    ∃ s2, sessionVerifyCreate2Endpoint computeCreate2 deployerAddress salt
      ctorArgs verificationId create2Address s = Except.ok (s2, []) := by
  constructor
  · simp only [verifyCreate2Endpoint, verifyCreate2]
    rw [if_neg hmm1]
    rfl
  · rw [sessionVerifyCreate2Endpoint_ok computeCreate2 deployerAddress salt
      ctorArgs verificationId create2Address s w hw]
    rw [verifyCreate2_mismatch_status computeCreate2 w.contract deployerAddress
      salt create2Address ctorArgs hmm2]
    exact ⟨_, rfl⟩

theorem C4_witness :
    lookupWrapper sessionC1 "v1" = some (wrapperPending "v1" contractC1) ∧
    "0xother" ≠ computeCreate2C4 "0xd" "0x01" (jsOr contractC1.creationBytecode "") "" ∧
    "0xother" ≠ computeCreate2C4 "0xd" "0x01"
      (jsOr (wrapperPending "v1" contractC1).contract.creationBytecode "") "" ∧
    ((verifyCreate2Endpoint computeCreate2C4 contractC1 "0xd" "0x01" "0xother" "").2 = [] ∧
     ∃ s2, sessionVerifyCreate2Endpoint computeCreate2C4 "0xd" "0x01" "" "v1"
       "0xother" sessionC1 = Except.ok (s2, [])) :=
  ⟨by decide, by decide, by decide,
   C4_create2_mismatch_not_persisted computeCreate2C4 contractC1 "0xd" "0x01" ""
     "0xother" "v1" sessionC1 (wrapperPending "v1" contractC1)
     (by decide) (by decide) (by decide)⟩

/-- C5 counterexample: a wrapper failing the verifiability predicate that is
named in the request does not appear unchanged in the response: its address
(previously unset) is overwritten with the request's address, though its
status does stay `pending`. -/
theorem C5_counterexample :
    isVerifiable wrapperC5 = false ∧
    wrapperC5.address = none ∧
    wrapperC5.status = "pending" ∧
    ((sessionAfter (verifyContractsInSessionEndpoint engineErr [rcC5] sessionC5)).bind
      (fun s2 => lookupWrapper s2 "v1")).map ContractWrapper.address =
      some (some "0xbbb") ∧
    ((sessionAfter (verifyContractsInSessionEndpoint engineErr [rcC5] sessionC5)).bind
      (fun s2 => lookupWrapper s2 "v1")).map ContractWrapper.status =
      some "pending" := by
  decide

/-- C5 (amended): every successful response of the session verify endpoint
returns the full wrapper registry — no wrapper is removed or omitted, and a
wrapper excluded from the verification batch keeps its status (a pending one
stays pending) — but a wrapper named in the request has `address`, `chainId`
and `creatorTxHash` overwritten with the request's values, so a
non-verifiable wrapper does not in general appear unchanged. -/
theorem C5_amended_full_registry_returned
    (engine : ContractWrapper → Except String Match)
    (received : List SendableContract) (s : SessionState)
    (hne : s.contractWrappers.isEmpty = false) :
    ∃ s2 tr,
      verifyContractsInSessionEndpoint engine received s =
        Except.ok (s2, getSessionJSON s2, tr) ∧
      wrapperIds s2.contractWrappers = wrapperIds s.contractWrappers ∧
      (getSessionJSON s2).map SendableContract.verificationId =
        wrapperIds s.contractWrappers ∧
      ∀ id, id ∉ (updateAndSelectVerifiable received s []).2 →
        (lookupWrapper s2 id).map ContractWrapper.status =
          (lookupWrapper s id).map ContractWrapper.status := by
  rw [verifyContractsInSessionEndpoint_ok engine received s hne]
  refine ⟨_, _, rfl, ?_, ?_, ?_⟩
  · rw [verifyContractsInSession_wrapperIds]
    exact updateAndSelectVerifiable_wrapperIds received s []
  · rw [getSessionJSON_ids, verifyContractsInSession_wrapperIds]
    exact updateAndSelectVerifiable_wrapperIds received s []
  · intro id hid
    rw [verifyContractsInSession_lookup_notMem engine _ _ id hid]
    exact updateAndSelectVerifiable_status received s [] id

theorem C5_amended_witness :
    sessionC5.contractWrappers.isEmpty = false ∧
    (∃ s2 tr,
      verifyContractsInSessionEndpoint engineErr [rcC5] sessionC5 =
        Except.ok (s2, getSessionJSON s2, tr) ∧
      wrapperIds s2.contractWrappers = wrapperIds sessionC5.contractWrappers ∧
      (getSessionJSON s2).map SendableContract.verificationId =
        wrapperIds sessionC5.contractWrappers ∧
      ∀ id, id ∉ (updateAndSelectVerifiable [rcC5] sessionC5 []).2 →
        (lookupWrapper s2 id).map ContractWrapper.status =
          (lookupWrapper sessionC5 id).map ContractWrapper.status) :=
  ⟨by decide,
   C5_amended_full_registry_returned engineErr [rcC5] sessionC5 (by decide)⟩

/-- C7: the session CREATE2 precompile operation refreshes only the named
wrapper's `contract.creationBytecode`; its status, statusMessage, address,
chainId, storageTimestamp, creatorTxHash, identity and remaining contract
fields are unchanged, every other wrapper is unchanged, and the file store
and the registry keys are unchanged. -/
theorem C7_precompile_only_refreshes_bytecode
    (recompile : ContractModel → String) (verificationId : String)
    (s : SessionState) (w : ContractWrapper)
    (hw : lookupWrapper s verificationId = some w) :
    ∃ s2, sessionPrecompileContract recompile verificationId s = Except.ok s2 ∧
      (∃ w2, lookupWrapper s2 verificationId = some w2 ∧
        w2.contract.creationBytecode = some (recompile w.contract) ∧
        w2.status = w.status ∧ w2.statusMessage = w.statusMessage ∧
        w2.address = w.address ∧ w2.chainId = w.chainId ∧
        w2.storageTimestamp = w.storageTimestamp ∧
        w2.creatorTxHash = w.creatorTxHash ∧
        w2.verificationId = w.verificationId ∧
        w2.contract.metadata = w.contract.metadata ∧
        w2.contract.solidity = w.contract.solidity ∧
        w2.contract.missing = w.contract.missing ∧
        w2.contract.invalid = w.contract.invalid) ∧
      (∀ id, id ≠ verificationId → lookupWrapper s2 id = lookupWrapper s id) ∧
      s2.files = s.files ∧
      wrapperIds s2.contractWrappers = wrapperIds s.contractWrappers := by
  have hne := lookupWrapper_isEmpty_false hw
  refine ⟨setWrapperS s verificationId { w with contract :=
      { w.contract with creationBytecode := some (recompile w.contract) } },
    ?_, ?_, ?_, rfl, wrapperIds_setWrapper _ _ _⟩
  · simp only [sessionPrecompileContract, hne, Bool.false_eq_true, if_false, hw]
  · exact ⟨_, lookupWrapper_setWrapperS_self _ hw, rfl, rfl, rfl, rfl, rfl, rfl,
      rfl, rfl, rfl, rfl, rfl, rfl⟩
  · intro id hid
    exact lookupWrapper_setWrapperS_ne _ _ _ _ hid

theorem C7_witness :
    lookupWrapper sessionC1 "v1" = some (wrapperPending "v1" contractC1) ∧
    (∃ s2, sessionPrecompileContract (fun _ => "0xbeef") "v1" sessionC1 =
        Except.ok s2 ∧
      (∃ w2, lookupWrapper s2 "v1" = some w2 ∧
        w2.contract.creationBytecode =
          some ((fun _ => "0xbeef") (wrapperPending "v1" contractC1).contract) ∧
        w2.status = (wrapperPending "v1" contractC1).status ∧
        w2.statusMessage = (wrapperPending "v1" contractC1).statusMessage ∧
        w2.address = (wrapperPending "v1" contractC1).address ∧
        w2.chainId = (wrapperPending "v1" contractC1).chainId ∧
        w2.storageTimestamp = (wrapperPending "v1" contractC1).storageTimestamp ∧
        w2.creatorTxHash = (wrapperPending "v1" contractC1).creatorTxHash ∧
        w2.verificationId = (wrapperPending "v1" contractC1).verificationId ∧
        w2.contract.metadata = (wrapperPending "v1" contractC1).contract.metadata ∧
        w2.contract.solidity = (wrapperPending "v1" contractC1).contract.solidity ∧
        w2.contract.missing = (wrapperPending "v1" contractC1).contract.missing ∧
        w2.contract.invalid = (wrapperPending "v1" contractC1).contract.invalid) ∧
      (∀ id, id ≠ "v1" → lookupWrapper s2 id = lookupWrapper sessionC1 id) ∧
      s2.files = sessionC1.files ∧
      wrapperIds s2.contractWrappers = wrapperIds sessionC1.contractWrappers) :=
  ⟨by decide,
   C7_precompile_only_refreshes_bytecode (fun _ => "0xbeef") "v1" sessionC1
     (wrapperPending "v1" contractC1) (by decide)⟩

/-- C10: every invocation of the session CREATE2 verify endpoint on an
existing wrapper sets that wrapper's chainId to the constant string "0" and
overwrites its address with the address carried by the returned match,
whatever the match outcome and whatever address or chainId were previously
set. -/
theorem C10_session_create2_overwrites_target
    (computeCreate2 : String → String → String → String → String)
    (deployerAddress salt ctorArgs verificationId create2Address : String)
    (s : SessionState) (w : ContractWrapper)
    (hw : lookupWrapper s verificationId = some w) :
    ∃ s2 tr,
      sessionVerifyCreate2Endpoint computeCreate2 deployerAddress salt ctorArgs
        verificationId create2Address s = Except.ok (s2, tr) ∧
      ∃ w2, lookupWrapper s2 verificationId = some w2 ∧
        w2.chainId = some "0" ∧
        w2.address = (verifyCreate2 computeCreate2 w.contract deployerAddress
          salt create2Address ctorArgs).address := by
  rw [sessionVerifyCreate2Endpoint_ok computeCreate2 deployerAddress salt
    ctorArgs verificationId create2Address s w hw]
  exact ⟨_, _, rfl, _, lookupWrapper_setWrapperS_self _ hw, rfl, rfl⟩

theorem C10_witness :
    lookupWrapper sessionC3 "v1" = some wrapperC3 ∧
    (∃ s2 tr,
      sessionVerifyCreate2Endpoint computeCreate2C4 "0xd" "0x01" "" "v1"
        "0xother" sessionC3 = Except.ok (s2, tr) ∧
      ∃ w2, lookupWrapper s2 "v1" = some w2 ∧
        w2.chainId = some "0" ∧
        w2.address = (verifyCreate2 computeCreate2C4 wrapperC3.contract "0xd"
          "0x01" "0xother" "").address) :=
  ⟨by decide,
   C10_session_create2_overwrites_target computeCreate2C4 "0xd" "0x01" "" "v1"
     "0xother" sessionC3 wrapperC3 (by decide)⟩

end Sourcify

